import Mathlib

/-!
Verification of the Wax repository's `scripts/quantize_minilm.py`.

The script is embedded shallowly.  Filesystem state, the coremltools
loader, the quantizer entry point `linear_quantize_weights`, and the
`save` call are opaque effects of the script, so they are passed in as
explicit parameters (an `FS` value and `Except`-returning oracle
functions), and every function of the script additionally returns the
ordered list of observable actions (existence checks, loads, quantizer
invocations, saves, printed lines) that the corresponding Python code
performs.
-/

namespace QuantizeMinilm

/-- The five filesystem locations the script mentions: `RESOURCES_DIR`,
`SOURCE_MODEL`, `OUTPUT_MODEL`, and the two alternate candidate paths of
`find_model`. -/
inductive PyPath where
  | resourcesDir
  | sourceModel
  | outputModel
  | altMlpackage
  | altMlmodel
  deriving DecidableEq

/-- Rendering of each path, relative to `PROJECT_ROOT` (at runtime Python
prints an absolute path whose environment-dependent prefix is omitted
here). -/
def pathStr : PyPath → String
  | .resourcesDir => "Sources/WaxVectorSearchMiniLM/Resources"
  | .sourceModel  => "Sources/WaxVectorSearchMiniLM/Resources/all-MiniLM-L6-v2.mlmodelc"
  | .outputModel  => "Sources/WaxVectorSearchMiniLM/Resources/all-MiniLM-L6-v2-W8A8.mlmodelc"
  | .altMlpackage => "Sources/WaxVectorSearchMiniLM/Resources/all-MiniLM-L6-v2.mlpackage"
  | .altMlmodel   => "Sources/WaxVectorSearchMiniLM/Resources/model.mlmodel"

/-- A filesystem entry: a regular file with a byte size, or a directory
with child entries (child names are irrelevant to the script's size
computation and are dropped). -/
inductive FSEntry where
  | file (size : Nat)
  | dir (children : List FSEntry)

/-- Filesystem state: what entry (if any) sits at each of the script's
paths, plus the member names that `RESOURCES_DIR.iterdir()` yields (used
only by `find_model`'s diagnostic listing). -/
structure FS where
  entry : PyPath → Option FSEntry
  resourcesNames : List String

/-- `Path.exists()`. -/
def fsExists (fs : FS) (p : PyPath) : Bool := (fs.entry p).isSome

mutual

/-- Total size of the regular files in the subtree rooted at an entry
(the entry itself included when it is a file). -/
def FSEntry.subtreeFileSize : FSEntry → Nat
  | .file s => s
  | .dir cs => FSEntry.subtreeListSize cs

/-- Sum of `subtreeFileSize` over a list of entries. -/
def FSEntry.subtreeListSize : List FSEntry → Nat
  | [] => 0
  | e :: es => e.subtreeFileSize + FSEntry.subtreeListSize es

end

/-- `sum(f.stat().st_size for f in p.rglob("*") if f.is_file())`: the
recursive sum of regular-file sizes strictly below `p`.  pathlib's glob
selector yields nothing when the start path is not a directory, so a
single file contributes `0` (its own size is not counted). -/
def rglobFileSum : FSEntry → Nat
  | .file _ => 0
  | .dir cs => FSEntry.subtreeListSize cs

/-- `rglobFileSum` on the optional entry at a path; the `none` case is
unreachable under the script's `exists()` guard. -/
def entryRglobSum : Option FSEntry → Nat
  | none => 0
  | some e => rglobFileSum e

/-- The opaque coremltools model handle: the only field of it the script
reads is `get_spec().specificationVersion`. -/
structure MLModelSpec where
  specificationVersion : Nat
  deriving DecidableEq

structure MLModel where
  spec : MLModelSpec
  deriving DecidableEq

/-- A Python exception, abstracted to its message. -/
abbrev PyErr := String

/-- The error raised by `x / 0` on Python numbers. -/
def pyZeroDivisionError : PyErr := "ZeroDivisionError: division by zero"

/-- `cto.OpLinearQuantizerConfig(...)` keyword arguments as the script
passes them.  `weight_threshold = some none` records that the call passed
`weight_threshold=None` explicitly; `weight_threshold = none` records
that the argument was omitted (library default).  The config has no
activation-related argument. -/
structure OpLinearQuantizerConfig where
  mode : String
  dtype : String
  weight_threshold : Option (Option Nat)
  deriving DecidableEq

/-- `cto.OptimizationConfig(global_config=...)`. -/
structure OptimizationConfig where
  global_config : OpLinearQuantizerConfig
  deriving DecidableEq

/-- The first ("full") configuration built in `quantize_model`:
`OpLinearQuantizerConfig(mode="linear_symmetric", weight_threshold=None,
dtype="int8")`. -/
def fullConfig : OptimizationConfig :=
  ⟨⟨"linear_symmetric", "int8", some none⟩⟩

/-- The fallback configuration built in the `except` branch:
`OpLinearQuantizerConfig(mode="linear_symmetric", dtype="int8")`. -/
def fallbackConfig : OptimizationConfig :=
  ⟨⟨"linear_symmetric", "int8", none⟩⟩

/-- One observable action of the script. -/
inductive Action where
  | checkExists (p : PyPath)
  | loadModel (p : PyPath)
  | quantizeCall (cfg : OptimizationConfig)
  | save (p : PyPath)
  | print (s : String)
  deriving DecidableEq

/-- The configurations passed to `cto.linear_quantize_weights`, in call
order, appearing in a trace. -/
def quantCalls : List Action → List OptimizationConfig
  | [] => []
  | .quantizeCall c :: tr => c :: quantCalls tr
  | _ :: tr => quantCalls tr

/-- The paths whose existence a trace checks, in order. -/
def checksOf : List Action → List PyPath
  | [] => []
  | .checkExists p :: tr => p :: checksOf tr
  | _ :: tr => checksOf tr

/-- The candidate paths of `find_model`, in the order tried:
`SOURCE_MODEL`, then `alt_paths = [… .mlpackage, model.mlmodel]`. -/
def candidates : List PyPath :=
  [PyPath.sourceModel, PyPath.altMlpackage, PyPath.altMlmodel]

/-- `find_model()`: primary-path check, then the `for path in alt_paths`
loop (unrolled over the fixed two-element `alt_paths` list), then the
fatal diagnostic branch: print the searched primary path, print the
listing header, and enumerate `RESOURCES_DIR` members only when that
directory exists, then `sys.exit(1)`. -/
def find_model (fs : FS) : Except Nat PyPath × List Action :=
  if fsExists fs .sourceModel then
    (.ok .sourceModel, [.checkExists .sourceModel])
  else if fsExists fs .altMlpackage then
    (.ok .altMlpackage, [.checkExists .sourceModel, .checkExists .altMlpackage])
  else if fsExists fs .altMlmodel then
    (.ok .altMlmodel,
     [.checkExists .sourceModel, .checkExists .altMlpackage, .checkExists .altMlmodel])
  else
    (.error 1,
     [.checkExists .sourceModel, .checkExists .altMlpackage, .checkExists .altMlmodel,
      .print ("Error: Could not find source model at " ++ pathStr .sourceModel),
      .print "Available files in Resources:",
      .checkExists .resourcesDir] ++
     (if fsExists fs .resourcesDir then
        fs.resourcesNames.map (fun n => Action.print ("  - " ++ n))
      else []))

/-- The warning printed by `quantize_model`'s `except` branch. -/
def warnLine : String :=
  "Warning: Full W8A8 not supported, falling back to weight-only quantization"

/-- The prints between a successful load and the first quantizer call. -/
def modelInfoTrace (model : MLModel) : List Action :=
  [.print "Model info:",
   .print ("  - Spec version: " ++ toString model.spec.specificationVersion),
   .print "\nApplying W8A8 quantization...",
   .print "  - Mode: linear_symmetric",
   .print "  - Weight bits: 8",
   .print "  - Activation bits: 8 (dynamic)"]

/-- `quantize_model(model_path)`.  `load` stands for the
`ct.models.MLModel(str(path))` constructor and `lqw` for
`cto.linear_quantize_weights` (the same `lqw` is invoked in the `try`
body with `fullConfig` and in the `except` branch with `fallbackConfig`;
the second call is outside any handler, so its error propagates). -/
def quantize_model (load : PyPath → Except PyErr MLModel)
    (lqw : MLModel → OptimizationConfig → Except PyErr MLModel)
    (mp : PyPath) : Except PyErr MLModel × List Action :=
  match load mp with
  | .error e => (.error e, [.print ("Loading model from: " ++ pathStr mp), .loadModel mp])
  | .ok model =>
    match lqw model fullConfig with
    | .ok qm =>
      (.ok qm,
       [.print ("Loading model from: " ++ pathStr mp), .loadModel mp] ++
       modelInfoTrace model ++
       [.quantizeCall fullConfig, .print "✅ Quantization complete"])
    | .error e =>
      match lqw model fallbackConfig with
      | .ok qm =>
        (.ok qm,
         [.print ("Loading model from: " ++ pathStr mp), .loadModel mp] ++
         modelInfoTrace model ++
         [.quantizeCall fullConfig, .print warnLine, .print ("Error: " ++ e),
          .quantizeCall fallbackConfig, .print "✅ Weight-only INT8 quantization complete"])
      | .error e2 =>
        (.error e2,
         [.print ("Loading model from: " ++ pathStr mp), .loadModel mp] ++
         modelInfoTrace model ++
         [.quantizeCall fullConfig, .print warnLine, .print ("Error: " ++ e),
          .quantizeCall fallbackConfig])

/-- `validate_quantization(original, quantized)`: four prints, reading
only the two specification versions; no branching, no raise. -/
def validate_quantization (original quantized : MLModel) : List String :=
  ["\nQuantization validation:",
   "  - Original spec version: " ++ toString original.spec.specificationVersion,
   "  - Quantized spec version: " ++ toString quantized.spec.specificationVersion,
   "  - ✅ Model quantized successfully"]

/-- `(1 - quantized_size / original_size) * 100`, with Python's true
division of the two integer byte counts embedded as exact rational
division. -/
def reductionPercent (o q : Nat) : ℚ := (1 - (q : ℚ) / (o : ℚ)) * 100

/-- The data of the `Size comparison` block `main` prints. -/
structure SizeReport where
  originalSize : Nat
  quantizedSize : Nat
  reduction : ℚ
  deriving DecidableEq

/-- The size-reporting step of `main` (its final `if` block): guarded by
`SOURCE_MODEL.exists() and OUTPUT_MODEL.exists()` — note: the fixed
`SOURCE_MODEL` path, not the located model path, and `exists()`, which is
also true for a single file.  `ok none` is the silently skipped case;
when the guard holds and the original's recursive file-size sum is `0`
(e.g. `SOURCE_MODEL` is a single file, so `rglob` yields nothing), the
reduction expression raises `ZeroDivisionError`. -/
def sizeReport (fs : FS) : Except PyErr (Option SizeReport) :=
  if fsExists fs .sourceModel && fsExists fs .outputModel then
    let osz := entryRglobSum (fs.entry .sourceModel)
    let qsz := entryRglobSum (fs.entry .outputModel)
    if osz = 0 then .error pyZeroDivisionError
    else .ok (some ⟨osz, qsz, reductionPercent osz qsz⟩)
  else .ok none

/-- The `"=" * 60` separator line. -/
def sepLine : String := String.mk (List.replicate 60 '=')

/-- The banner `main` prints first. -/
def hdrTrace : List Action :=
  [.print sepLine, .print "Wax MiniLM-L6-v2 W8A8 Quantization", .print sepLine, .print ""]

/-- Effect of `quantized_model.save(str(OUTPUT_MODEL))`: the saved entry
replaces whatever was at `OUTPUT_MODEL`. -/
def fsAfterSave (fs : FS) (ent : FSEntry) : FS :=
  { fs with entry := fun p => if p = .outputModel then some ent else fs.entry p }

/-- Outcome of one process run. -/
inductive MainOutcome where
  | exited (code : Nat)
  | raised (e : PyErr)
  | completed (report : Option SizeReport)

/-- The trace of `main` from its banner through the `save` call. -/
def throughSaveTrace (fs : FS) (load : PyPath → Except PyErr MLModel)
    (lqw : MLModel → OptimizationConfig → Except PyErr MLModel)
    (mp : PyPath) (original qm : MLModel) : List Action :=
  hdrTrace ++ (find_model fs).2 ++ [.loadModel mp] ++ (quantize_model load lqw mp).2 ++
  (validate_quantization original qm).map Action.print ++
  [.print ("\nSaving quantized model to: " ++ pathStr .outputModel), .save .outputModel]

/-- `main()`: locate, load the original, quantize (which loads again),
validate, save, then the guarded size report (whose own prints are
summarized by the returned `SizeReport`), then the closing prints.
`saveOp` abstracts the persistence call of the toolkit; on success it
yields the entry now on disk at `OUTPUT_MODEL`. -/
def mainRun (fs : FS) (load : PyPath → Except PyErr MLModel)
    (lqw : MLModel → OptimizationConfig → Except PyErr MLModel)
    (saveOp : MLModel → Except PyErr FSEntry) : MainOutcome × List Action :=
  match (find_model fs).1 with
  | .error n => (.exited n, hdrTrace ++ (find_model fs).2)
  | .ok mp =>
    match load mp with
    | .error e => (.raised e, hdrTrace ++ (find_model fs).2 ++ [.loadModel mp])
    | .ok original =>
      match (quantize_model load lqw mp).1 with
      | .error e =>
        (.raised e,
         hdrTrace ++ (find_model fs).2 ++ [.loadModel mp] ++ (quantize_model load lqw mp).2)
      | .ok qm =>
        match saveOp qm with
        | .error e => (.raised e, throughSaveTrace fs load lqw mp original qm)
        | .ok ent =>
          match sizeReport (fsAfterSave fs ent) with
          | .error e => (.raised e, throughSaveTrace fs load lqw mp original qm)
          | .ok rep =>
            (.completed rep,
             throughSaveTrace fs load lqw mp original qm ++
             [.print "\n✅ Done! Update MiniLMEmbeddings.swift to load the quantized model.",
              .print sepLine])

/-- The whole script run: the module-level import guard around
`import coremltools`, then `main()`. -/
def scriptRun (coremltoolsAvailable : Bool) (fs : FS)
    (load : PyPath → Except PyErr MLModel)
    (lqw : MLModel → OptimizationConfig → Except PyErr MLModel)
    (saveOp : MLModel → Except PyErr FSEntry) : MainOutcome × List Action :=
  if coremltoolsAvailable then mainRun fs load lqw saveOp
  else (.exited 1,
        [.print "Error: coremltools not installed.",
         .print "Install with: pip install coremltools>=7.0"])

/-! ### Concrete fixtures used by the witnesses -/

/-- A model handle with a given specification version. -/
def mkModel (v : Nat) : MLModel := ⟨⟨v⟩⟩

/-- A loader that always succeeds with spec version 5. -/
def loadFive : PyPath → Except PyErr MLModel := fun _ => .ok (mkModel 5)

/-- A quantizer that always succeeds with spec version 6. -/
def lqwOk : MLModel → OptimizationConfig → Except PyErr MLModel :=
  fun _ _ => .ok (mkModel 6)

/-- A quantizer that rejects the full configuration (recognized by its
explicitly passed `weight_threshold=None`) and accepts the fallback. -/
def lqwRejectFull : MLModel → OptimizationConfig → Except PyErr MLModel :=
  fun _ c =>
    match c.global_config.weight_threshold with
    | some none => .error "boom"
    | _ => .ok (mkModel 6)

/-- A quantizer that rejects every configuration. -/
def lqwRejectAll : MLModel → OptimizationConfig → Except PyErr MLModel :=
  fun _ _ => .error "boom2"

/-- A save operation producing a one-file directory bundle. -/
def saveDirBundle : MLModel → Except PyErr FSEntry :=
  fun _ => .ok (.dir [.file 3])

/-- A filesystem with nothing at any of the script's paths. -/
def fsEmpty : FS := { entry := fun _ => none, resourcesNames := [] }

/-- A filesystem where only the third candidate, `model.mlmodel`,
exists. -/
def fsOnlyMlmodel : FS :=
  { entry := fun p => match p with
      | .altMlmodel => some (.file 1)
      | _ => none,
    resourcesNames := [] }

/-- A filesystem where the primary source path exists as a directory
bundle. -/
def fsPrimaryDir : FS :=
  { entry := fun p => match p with
      | .sourceModel => some (.dir [.file 10])
      | _ => none,
    resourcesNames := [] }

/-! ### C1 and C2: the full-then-fallback quantization policy -/

/-- C1: if the first quantization attempt (with the full configuration)
raises, `quantize_model` prints a warning containing "falling back" and
invokes the quantizer exactly once more, with the weight-only fallback
configuration; if that second attempt also raises, its error is the
result (propagates uncaught). -/
theorem quantize_model_fallback_on_error
    (load : PyPath → Except PyErr MLModel)
    (lqw : MLModel → OptimizationConfig → Except PyErr MLModel)
    (mp : PyPath) (m : MLModel) (e : PyErr)
    (hl : load mp = .ok m) (hf : lqw m fullConfig = .error e) :
    quantCalls (quantize_model load lqw mp).2 = [fullConfig, fallbackConfig] ∧
    (∃ pre suf, Action.print (pre ++ "falling back" ++ suf) ∈ (quantize_model load lqw mp).2) ∧
    (∀ e2, lqw m fallbackConfig = .error e2 → (quantize_model load lqw mp).1 = .error e2) ∧
    (∀ qm, lqw m fallbackConfig = .ok qm → (quantize_model load lqw mp).1 = .ok qm) := by
  cases hfb : lqw m fallbackConfig with
  | ok qm =>
    refine ⟨?_, ⟨"Warning: Full W8A8 not supported, ", " to weight-only quantization", ?_⟩,
      ?_, ?_⟩ <;>
      simp [quantize_model, hl, hf, hfb, quantCalls, modelInfoTrace, warnLine]
  | error e2 =>
    refine ⟨?_, ⟨"Warning: Full W8A8 not supported, ", " to weight-only quantization", ?_⟩,
      ?_, ?_⟩ <;>
      simp [quantize_model, hl, hf, hfb, quantCalls, modelInfoTrace, warnLine]

/-- C1 witness: at a loader that succeeds and a quantizer that rejects
the full configuration but accepts the fallback, the policy is observed
concretely. -/
theorem quantize_model_fallback_on_error_witness :
    quantCalls (quantize_model loadFive lqwRejectFull .sourceModel).2 =
      [fullConfig, fallbackConfig] ∧
    (quantize_model loadFive lqwRejectFull .sourceModel).1 = .ok (mkModel 6) := by
  have h := quantize_model_fallback_on_error loadFive lqwRejectFull .sourceModel
    (mkModel 5) "boom" rfl rfl
  exact ⟨h.1, h.2.2.2 (mkModel 6) rfl⟩

/-- C2: if the first quantization attempt succeeds, its result is
returned and the quantizer is invoked exactly once, with the full
configuration only — the fallback configuration is never passed to it. -/
theorem quantize_model_full_success
    (load : PyPath → Except PyErr MLModel)
    (lqw : MLModel → OptimizationConfig → Except PyErr MLModel)
    (mp : PyPath) (m qm : MLModel)
    (hl : load mp = .ok m) (hq : lqw m fullConfig = .ok qm) :
    (quantize_model load lqw mp).1 = .ok qm ∧
    quantCalls (quantize_model load lqw mp).2 = [fullConfig] ∧
    Action.quantizeCall fallbackConfig ∉ (quantize_model load lqw mp).2 := by
  have hne : Action.quantizeCall fallbackConfig ≠ Action.quantizeCall fullConfig := by decide
  refine ⟨?_, ?_, ?_⟩ <;>
    simp [quantize_model, hl, hq, quantCalls, modelInfoTrace, hne]

/-- C2 witness: at a loader and quantizer that always succeed. -/
theorem quantize_model_full_success_witness :
    (quantize_model loadFive lqwOk .sourceModel).1 = .ok (mkModel 6) ∧
    quantCalls (quantize_model loadFive lqwOk .sourceModel).2 = [fullConfig] ∧
    Action.quantizeCall fallbackConfig ∉ (quantize_model loadFive lqwOk .sourceModel).2 :=
  quantize_model_full_success loadFive lqwOk .sourceModel (mkModel 5) (mkModel 6) rfl rfl

/-! ### C3 and C4: the model locator -/

/-- C3: whenever some candidate exists, `find_model` returns the first
existing candidate in the fixed order, and the existence checks it
performs are exactly the non-existing candidates before it followed by
that candidate — no candidate after the first match is inspected. -/
theorem find_model_returns_first_existing (fs : FS) (q : PyPath)
    (h : candidates.find? (fun p => fsExists fs p) = some q) :
    (find_model fs).1 = .ok q ∧
    checksOf (find_model fs).2 =
      candidates.takeWhile (fun p => !(fsExists fs p)) ++ [q] := by
  cases e1 : fsExists fs .sourceModel <;> cases e2 : fsExists fs .altMlpackage <;>
    cases e3 : fsExists fs .altMlmodel <;>
    simp [candidates, List.find?, e1, e2, e3] at h <;>
    subst h <;>
    simp [find_model, checksOf, candidates, e1, e2, e3, List.takeWhile]

/-- C3 witness: with only `model.mlmodel` (the last candidate) present,
the locator returns it and checks all three candidates in order. -/
theorem find_model_returns_first_existing_witness :
    (find_model fsOnlyMlmodel).1 = .ok .altMlmodel ∧
    checksOf (find_model fsOnlyMlmodel).2 =
      [PyPath.sourceModel, PyPath.altMlpackage, PyPath.altMlmodel] := by
  have h := find_model_returns_first_existing fsOnlyMlmodel .altMlmodel (by decide)
  exact ⟨h.1, by rw [h.2]; decide⟩

/-- C4: when no candidate exists, `find_model` exits with status 1, its
output names the searched primary path, it enumerates the resources
directory's members exactly when that directory exists, and `main`
terminates with that status without ever attempting a model load. -/
theorem find_model_none_exits (fs : FS)
    (load : PyPath → Except PyErr MLModel)
    (lqw : MLModel → OptimizationConfig → Except PyErr MLModel)
    (saveOp : MLModel → Except PyErr FSEntry)
    (h : ∀ p ∈ candidates, fsExists fs p = false) :
    (find_model fs).1 = .error 1 ∧
    (find_model fs).2 =
      [.checkExists .sourceModel, .checkExists .altMlpackage, .checkExists .altMlmodel,
       .print ("Error: Could not find source model at " ++ pathStr .sourceModel),
       .print "Available files in Resources:",
       .checkExists .resourcesDir] ++
      (if fsExists fs .resourcesDir then
         fs.resourcesNames.map (fun n => Action.print ("  - " ++ n))
       else []) ∧
    (mainRun fs load lqw saveOp).1 = .exited 1 ∧
    (∀ p, Action.loadModel p ∉ (mainRun fs load lqw saveOp).2) := by
  have e1 := h .sourceModel (by simp [candidates])
  have e2 := h .altMlpackage (by simp [candidates])
  have e3 := h .altMlmodel (by simp [candidates])
  refine ⟨?_, ?_, ?_, ?_⟩
  · simp [find_model, e1, e2, e3]
  · simp [find_model, e1, e2, e3]
  · simp [mainRun, find_model, e1, e2, e3]
  · intro p
    simp only [mainRun, find_model, e1, e2, e3]
    simp [hdrTrace, List.mem_append, List.mem_map]

/-- C4 witness: on the empty filesystem the locator exits with status 1
and `main` never loads. -/
theorem find_model_none_exits_witness :
    (find_model fsEmpty).1 = .error 1 ∧
    (mainRun fsEmpty loadFive lqwOk saveDirBundle).1 = .exited 1 ∧
    Action.loadModel PyPath.sourceModel ∉ (mainRun fsEmpty loadFive lqwOk saveDirBundle).2 := by
  have h := find_model_none_exits fsEmpty loadFive lqwOk saveDirBundle (by decide)
  exact ⟨h.1, h.2.2.1, h.2.2.2 .sourceModel⟩

/-! ### C5: what the two configurations actually request -/

/-- C5 (code bug evidence): both configurations the script builds are
`OpLinearQuantizerConfig`s — the weight-quantizer configuration passed to
the same `linear_quantize_weights` call in both branches.  They agree in
`mode` (`linear_symmetric`) and `dtype` (`int8`); their only difference
is that the full configuration passes `weight_threshold=None` explicitly
while the fallback omits the argument.  Neither carries any
activation-quantization request, although the script's docstring and
prints claim W8A8 with 8-bit dynamic activations. -/
theorem quantize_configs_same_scheme :
    fullConfig.global_config.mode = fallbackConfig.global_config.mode ∧
    fullConfig.global_config.dtype = fallbackConfig.global_config.dtype ∧
    fullConfig.global_config.mode = "linear_symmetric" ∧
    fullConfig.global_config.dtype = "int8" ∧
    fullConfig.global_config.weight_threshold = some none ∧
    fallbackConfig.global_config.weight_threshold = none ∧
    fullConfig ≠ fallbackConfig := by
  refine ⟨rfl, rfl, rfl, rfl, rfl, rfl, ?_⟩
  decide

/-! ### C6, C7 and C8: the size-reporting step -/

/-- A filesystem where the primary source path is a single file and the
output path is a directory bundle. -/
def fsFileSource : FS :=
  { entry := fun p => match p with
      | .sourceModel => some (.file 5)
      | .outputModel => some (.dir [.file 3])
      | _ => none,
    resourcesNames := [] }

/-- A filesystem where the model is located at the `.mlpackage`
alternate (the primary path is absent) and the output bundle exists. -/
def fsAltLocated : FS :=
  { entry := fun p => match p with
      | .altMlpackage => some (.dir [.file 10])
      | .outputModel => some (.dir [.file 5])
      | _ => none,
    resourcesNames := [] }

/-- A filesystem whose source and output bundles hold 100 MB and 26 MB
of files respectively. -/
def fsBundle100 : FS :=
  { entry := fun p => match p with
      | .sourceModel => some (.dir [.file 104857600])
      | .outputModel => some (.dir [.file 27262976])
      | _ => none,
    resourcesNames := [] }

/-- C6 counterexample: with the original bundle path a single file (and
the output a directory bundle), the size-reporting step is NOT skipped:
`exists()` is true for the file, `rglob` sums its contents to 0, and the
reduction expression raises `ZeroDivisionError`, so the run does not
complete successfully. -/
theorem sizeReport_file_source_raises :
    fsFileSource.entry .sourceModel = some (.file 5) ∧
    fsExists fsFileSource .sourceModel = true ∧
    fsExists fsFileSource .outputModel = true ∧
    sizeReport fsFileSource = .error pyZeroDivisionError :=
  ⟨rfl, rfl, rfl, rfl⟩

/-- C6 amended: the reporting step is skipped exactly when one of the
two fixed paths does not exist; a path that exists as a single file does
not skip it.  If the original path is a single file (its recursive file
sum is 0) the step raises `ZeroDivisionError`; if only the output is a
single file, a report with quantized size 0 is produced. -/
theorem sizeReport_exists_gating_behavior (fs : FS) :
    ((fsExists fs .sourceModel = false ∨ fsExists fs .outputModel = false) →
       sizeReport fs = .ok none) ∧
    (∀ s, fs.entry .sourceModel = some (.file s) → fsExists fs .outputModel = true →
       sizeReport fs = .error pyZeroDivisionError) ∧
    (∀ s cs, fs.entry .sourceModel = some (.dir cs) → 0 < FSEntry.subtreeListSize cs →
       fs.entry .outputModel = some (.file s) →
       sizeReport fs = .ok (some ⟨FSEntry.subtreeListSize cs, 0,
         reductionPercent (FSEntry.subtreeListSize cs) 0⟩)) := by
  refine ⟨?_, ?_, ?_⟩
  · rintro (h | h) <;> simp [sizeReport, h]
  · intro s hs ho
    obtain ⟨oe, hoe⟩ := Option.isSome_iff_exists.mp ho
    simp [sizeReport, fsExists, hs, hoe, entryRglobSum, rglobFileSum]
  · intro s cs hs hpos ho
    have hne : FSEntry.subtreeListSize cs ≠ 0 := Nat.pos_iff_ne_zero.mp hpos
    simp [sizeReport, fsExists, hs, ho, entryRglobSum, rglobFileSum, hne]

/-- C6 amended witness: the single-file-original case evaluated
concretely. -/
theorem sizeReport_exists_gating_behavior_witness :
    sizeReport fsFileSource = .error pyZeroDivisionError :=
  (sizeReport_exists_gating_behavior fsFileSource).2.1 5 rfl rfl

/-- C7 counterexample: the model is located at the `.mlpackage`
alternate, the located original and the output both exist as directory
bundles, yet the size report is skipped, because the guard checks the
fixed primary `SOURCE_MODEL` path rather than the located path. -/
theorem sizeReport_skipped_despite_located_exists :
    (find_model fsAltLocated).1 = .ok .altMlpackage ∧
    fsExists fsAltLocated .altMlpackage = true ∧
    fsExists fsAltLocated .outputModel = true ∧
    sizeReport fsAltLocated = .ok none :=
  ⟨rfl, rfl, rfl, rfl⟩

/-- C7 amended: the report is skipped exactly when the fixed primary
source path or the output path does not exist (`exists()` also holds for
single files, so "exists as a directory bundle" is not what is tested);
in particular, whenever the locator found the model at an alternate
path, the primary path is absent and the report is skipped even though
the located original and the output exist. -/
theorem sizeReport_primary_path_gating (fs : FS) :
    (sizeReport fs = .ok none ↔
       ¬(fsExists fs .sourceModel = true ∧ fsExists fs .outputModel = true)) ∧
    (∀ p, (find_model fs).1 = .ok p → p ≠ .sourceModel → sizeReport fs = .ok none) := by
  constructor
  · cases e1 : fsExists fs .sourceModel <;> cases e2 : fsExists fs .outputModel <;>
      simp [sizeReport, e1, e2]
    split <;> simp
  · intro p hp hne
    cases e1 : fsExists fs .sourceModel with
    | false => simp [sizeReport, e1]
    | true =>
      exfalso
      apply hne
      simp [find_model, e1] at hp
      exact hp.symm

/-- C7 amended witness: evaluated at the alternate-located filesystem. -/
theorem sizeReport_primary_path_gating_witness :
    sizeReport fsAltLocated = .ok none :=
  (sizeReport_primary_path_gating fsAltLocated).2 .altMlpackage rfl (by decide)

/-- C8: whenever the report is produced, the reduction it reports is
`(1 - quantized_size / original_size) * 100` (Python's float division
embedded as exact rational division; the script renders the value with
one decimal digit); in particular a 100 MB original with a 26 MB
quantized bundle reports exactly 74, rendered `74.0%`. -/
theorem sizeReport_reduction_formula (fs : FS) (o q : Nat)
    (h1 : fsExists fs .sourceModel = true) (h2 : fsExists fs .outputModel = true)
    (ho : entryRglobSum (fs.entry .sourceModel) = o)
    (hq : entryRglobSum (fs.entry .outputModel) = q)
    (hpos : 0 < o) :
    sizeReport fs = .ok (some ⟨o, q, (1 - (q : ℚ) / (o : ℚ)) * 100⟩) ∧
    reductionPercent 104857600 27262976 = 74 := by
  constructor
  · have hne : o ≠ 0 := Nat.pos_iff_ne_zero.mp hpos
    simp [sizeReport, h1, h2, ho, hq, hne, reductionPercent]
  · norm_num [reductionPercent]

/-- C8 witness: evaluated at 104857600-byte and 27262976-byte bundles
(100 MB and 26 MB). -/
theorem sizeReport_reduction_formula_witness :
    sizeReport fsBundle100 =
      .ok (some ⟨104857600, 27262976, (1 - (27262976 : ℚ) / (104857600 : ℚ)) * 100⟩) ∧
    reductionPercent 104857600 27262976 = 74 :=
  sizeReport_reduction_formula fsBundle100 104857600 27262976 rfl rfl rfl rfl
    (by norm_num)

/-! ### C9: validation is advisory -/

/-- C9: `validate_quantization` only reads the two specification
versions and prints them (it is a total function of the two handles — it
cannot raise), and `main` invokes the save step for every pair of
handles that reaches validation, with no hypothesis relating the two
versions: matching or differing versions make no difference to reaching
`save`. -/
theorem validate_never_gates_save (fs : FS)
    (load : PyPath → Except PyErr MLModel)
    (lqw : MLModel → OptimizationConfig → Except PyErr MLModel)
    (saveOp : MLModel → Except PyErr FSEntry)
    (mp : PyPath) (om qm : MLModel)
    (h1 : (find_model fs).1 = .ok mp) (h2 : load mp = .ok om)
    (h3 : (quantize_model load lqw mp).1 = .ok qm) :
    Action.print ("  - Original spec version: " ++ toString om.spec.specificationVersion) ∈
      (mainRun fs load lqw saveOp).2 ∧
    Action.print ("  - Quantized spec version: " ++ toString qm.spec.specificationVersion) ∈
      (mainRun fs load lqw saveOp).2 ∧
    Action.save .outputModel ∈ (mainRun fs load lqw saveOp).2 := by
  cases hs : saveOp qm with
  | error e =>
    refine ⟨?_, ?_, ?_⟩ <;>
      simp [mainRun, h1, h2, h3, hs, throughSaveTrace, validate_quantization]
  | ok ent =>
    cases hr : sizeReport (fsAfterSave fs ent) with
    | error e =>
      refine ⟨?_, ?_, ?_⟩ <;>
        simp [mainRun, h1, h2, h3, hs, hr, throughSaveTrace, validate_quantization]
    | ok rep =>
      refine ⟨?_, ?_, ?_⟩ <;>
        simp [mainRun, h1, h2, h3, hs, hr, throughSaveTrace, validate_quantization]

/-- C9 witness: a run whose original and quantized handles have
different specification versions (5 and 6) still prints both versions
and reaches the save step. -/
theorem validate_never_gates_save_witness :
    Action.print ("  - Original spec version: " ++ toString (5 : Nat)) ∈
      (mainRun fsPrimaryDir loadFive lqwOk saveDirBundle).2 ∧
    Action.print ("  - Quantized spec version: " ++ toString (6 : Nat)) ∈
      (mainRun fsPrimaryDir loadFive lqwOk saveDirBundle).2 ∧
    Action.save .outputModel ∈ (mainRun fsPrimaryDir loadFive lqwOk saveDirBundle).2 :=
  validate_never_gates_save fsPrimaryDir loadFive lqwOk saveDirBundle .sourceModel
    (mkModel 5) (mkModel 6) rfl rfl rfl

/-! ### C10: the import guard -/

/-- C10: if coremltools cannot be imported, the script prints the two
error lines and exits with status 1; its trace holds no filesystem
existence check and no model load — the guard fires before any path is
examined. -/
theorem import_guard_exits_before_fs (fs : FS)
    (load : PyPath → Except PyErr MLModel)
    (lqw : MLModel → OptimizationConfig → Except PyErr MLModel)
    (saveOp : MLModel → Except PyErr FSEntry) :
    scriptRun false fs load lqw saveOp =
      (.exited 1,
       [.print "Error: coremltools not installed.",
        .print "Install with: pip install coremltools>=7.0"]) ∧
    (∀ p, Action.checkExists p ∉ (scriptRun false fs load lqw saveOp).2) ∧
    (∀ p, Action.loadModel p ∉ (scriptRun false fs load lqw saveOp).2) := by
  refine ⟨rfl, ?_, ?_⟩ <;> intro p <;> simp [scriptRun]

/-- C10 witness: the guard evaluated on a concrete environment. -/
theorem import_guard_exits_before_fs_witness :
    scriptRun false fsEmpty loadFive lqwOk saveDirBundle =
      (.exited 1,
       [.print "Error: coremltools not installed.",
        .print "Install with: pip install coremltools>=7.0"]) ∧
    Action.checkExists PyPath.sourceModel ∉
      (scriptRun false fsEmpty loadFive lqwOk saveDirBundle).2 ∧
    Action.loadModel PyPath.sourceModel ∉
      (scriptRun false fsEmpty loadFive lqwOk saveDirBundle).2 := by
  have h := import_guard_exits_before_fs fsEmpty loadFive lqwOk saveDirBundle
  exact ⟨h.1, h.2.1 .sourceModel, h.2.2 .sourceModel⟩

end QuantizeMinilm
